import Mathlib

/-!
# WaqfWise Payment & Ledger Subsystem — verification development

A shallow embedding, in Lean 4, of the payment and ledger core of the
WaqfWise donation-processing backend, together with theorems settling the
behavioural claims made about it.

Embedding conventions:
* Go `int64` values are modelled as `Int`; every arithmetic operation of the
  source is wrapped in `wrap64`, the two's-complement reduction into
  `[-2^63, 2^63)`, so overflow behaves exactly as in Go.  Go's `/` on
  integers truncates toward zero, which is `Int.tdiv` (division by the
  positive literals `100` and `1000` cannot overflow, so it is not wrapped).
* Go string-typed enumerations (`domain.PaymentStatus`,
  `domain.PaymentGateway`, `payment.PaymentStatus`) are modelled as `String`
  with one named definition per constant, as in the source.
* Database tables (`donations`, `ledgers`, `fraud_checks`) are modelled as
  lists inside `RepoState`; a SQL `INSERT` appends, a SQL `UPDATE` maps over
  the list, and the `GetCampaignBalance` aggregate query is translated
  clause by clause.
* Fallible repository calls are modelled by a fault schedule
  `faults : Nat → Bool` naming which repository call of a single
  `RecordDonation` invocation fails; the fault-free run fixes it to
  `fun _ => false`.
* Timestamps are abstracted: `paidAt` is a `Bool` recording whether the
  field was set.  `json.Marshal` of the fraud-flag list is kept as the list
  itself.  Neither abstraction is load-bearing for any theorem below.
-/

namespace Waqfwise

/-- Two's-complement reduction of an unbounded integer into the `int64`
range `[-2^63, 2^63)`, i.e. the value a Go `int64` holds after overflow. -/
def wrap64 (x : Int) : Int := (x + 2 ^ 63) % 2 ^ 64 - 2 ^ 63

/-- Go `int64` addition. -/
def i64add (a b : Int) : Int := wrap64 (a + b)

/-- Go `int64` subtraction. -/
def i64sub (a b : Int) : Int := wrap64 (a - b)

/-- Go `int64` multiplication. -/
def i64mul (a b : Int) : Int := wrap64 (a * b)

/-! ## Domain model (`internal/shared/domain/payment.go`) -/

/-- `domain.PaymentStatusPending`. -/
def PaymentStatusPending : String := "pending"

/-- `domain.PaymentStatusProcessing`. -/
def PaymentStatusProcessing : String := "processing"

/-- `domain.PaymentStatusSuccess`. -/
def PaymentStatusSuccess : String := "success"

/-- `domain.PaymentStatusFailed`. -/
def PaymentStatusFailed : String := "failed"

/-- `domain.PaymentStatusRefunded`. -/
def PaymentStatusRefunded : String := "refunded"

/-- `domain.PaymentStatusCancelled`. -/
def PaymentStatusCancelled : String := "cancelled"

/-- `domain.PaymentGatewayMidtrans`. -/
def PaymentGatewayMidtrans : String := "midtrans"

/-- `domain.PaymentGatewayXendit`. -/
def PaymentGatewayXendit : String := "xendit"

/-- `domain.PaymentGatewayManual`. -/
def PaymentGatewayManual : String := "manual"

/-- `domain.Donation` — the fields read by the embedded code
(timestamps and presentation-only fields omitted; `paidAt` abstracts the
nullable timestamp to whether it is set). -/
structure Donation where
  id : Int
  campaignID : Int
  amount : Int
  status : String
  paymentGateway : String
  transactionID : String
  donorEmail : String
  paidAt : Bool
deriving Repr, DecidableEq

/-- `domain.Ledger` — one double-entry ledger row (timestamp omitted). -/
structure Ledger where
  donationID : Int
  accountType : String
  accountName : String
  amount : Int
  balanceBefore : Int
  balanceAfter : Int
  description : String
deriving Repr, DecidableEq

/-- `domain.FraudCheck` (timestamp omitted; the JSON-marshalled flag string
kept as the flag list itself). -/
structure FraudCheck where
  donationID : Int
  riskScore : Int
  riskLevel : String
  flags : List String
  isBlocked : Bool
  reason : String
  ipAddress : String
  deviceID : String
deriving Repr, DecidableEq

/-! ## Persistence boundary (`internal/services/payment/repository`) -/

/-- The repository-visible database state: the `donations`, `ledgers` and
`fraud_checks` tables, plus a count of log lines emitted (used to express
"accepted and logged" for duplicate notifications). -/
structure RepoState where
  donations : List Donation
  ledgers : List Ledger
  fraudChecks : List FraudCheck
  logCount : Nat
deriving Repr, DecidableEq

/-- `repository.CreateLedgerEntry`: a single-row `INSERT INTO ledgers`,
modelled as an append.  Each call is its own statement — the repository
opens no surrounding transaction. -/
def createLedgerEntry (st : RepoState) (entry : Ledger) : RepoState :=
  { st with ledgers := st.ledgers ++ [entry] }

/-- `repository.UpdateDonationStatus`: `UPDATE donations SET status = $1
WHERE id = $3`. -/
def updateDonationStatus (st : RepoState) (id_ : Int) (status : String) : RepoState :=
  { st with donations :=
      st.donations.map (fun d => if d.id = id_ then { d with status := status } else d) }

/-- `repository.CreateFraudCheck`: `INSERT INTO fraud_checks`, an append. -/
def createFraudCheck (st : RepoState) (check : FraudCheck) : RepoState :=
  { st with fraudChecks := st.fraudChecks ++ [check] }

/-- `repository.GetCampaignBalance`, the aggregate query
`SELECT COALESCE(SUM(CASE WHEN account_type = 'credit' THEN amount ELSE
-amount END), 0) FROM ledgers l JOIN donations d ON l.donation_id = d.id
WHERE d.campaign_id = $1`.  The join resolves each ledger row's donation by
id (`donations.id` is the primary key, so `find?` is the row lookup). -/
def getCampaignBalance (st : RepoState) (campaignID : Int) : Int :=
  ((st.ledgers.filter (fun l =>
      (st.donations.find? (fun d => d.id = l.donationID)).map Donation.campaignID
        = some campaignID)).map
    (fun l => if l.accountType = "credit" then l.amount else -l.amount)).sum

/-! ## Ledger engine (`internal/services/payment/service/ledger.go`) -/

/-- `LedgerManager.calculateGatewayFee`: the per-gateway fee schedule.
Go's `switch` on the string-typed gateway compares against the named
constants; any other gateway string falls to the default branch. -/
def calculateGatewayFee (gateway : String) (amount : Int) : Int :=
  if gateway = PaymentGatewayMidtrans then
    -- Midtrans: 2% + Rp 2000
    i64add (Int.tdiv (i64mul amount 2) 100) 2000
  else if gateway = PaymentGatewayXendit then
    -- Xendit: 2.9% + Rp 2000
    i64add (Int.tdiv (i64mul amount 29) 1000) 2000
  else
    0

/-- Entry 1 of `LedgerManager.RecordDonation`: "Debit - Cash/Bank Account
(money coming in)", the struct literal of the source named as a
definition. -/
def debitEntryOf (currentBalance : Int) (donation : Donation) : Ledger :=
  { donationID := donation.id
    accountType := "debit"
    accountName := "cash_account"
    amount := donation.amount
    balanceBefore := currentBalance
    balanceAfter := i64add currentBalance donation.amount
    description := "Donation received from transaction " ++ donation.transactionID }

/-- Entry 2 of `LedgerManager.RecordDonation`: "Credit - Campaign Fund
(liability to campaign)". -/
def creditEntryOf (currentBalance netAmount : Int) (donation : Donation) : Ledger :=
  { donationID := donation.id
    accountType := "credit"
    accountName := "campaign_fund"
    amount := netAmount
    balanceBefore := currentBalance
    balanceAfter := i64add currentBalance netAmount
    description := "Campaign fund for campaign ID " ++ toString donation.campaignID }

/-- Entry 3 of `LedgerManager.RecordDonation`: "Credit - Gateway Fee
Expense". -/
def feeEntryOf (currentBalance gatewayFee : Int) (donation : Donation) : Ledger :=
  { donationID := donation.id
    accountType := "credit"
    accountName := "gateway_fee_expense"
    amount := gatewayFee
    balanceBefore := currentBalance
    balanceAfter := currentBalance
    description := "Gateway fee for " ++ donation.paymentGateway }

/-- `LedgerManager.RecordDonation` under a fault schedule for its four
repository calls: call `0` is `GetCampaignBalance`, calls `1`, `2`, `3` are
the three `CreateLedgerEntry` inserts in source order.  Returns the error
message (if any) together with the database state as the repository leaves
it — inserts that succeeded before a failing call remain persisted, exactly
as in the source, which issues each insert as an independent statement and
returns on the first error. -/
def recordDonationWith (faults : Nat → Bool) (st : RepoState) (donation : Donation) :
    Option String × RepoState :=
  let totalAmount := donation.amount
  let gatewayFee := calculateGatewayFee donation.paymentGateway totalAmount
  let netAmount := i64sub totalAmount gatewayFee
  if faults 0 then (some "Failed to get campaign balance", st) else
  let currentBalance := getCampaignBalance st donation.campaignID
  if faults 1 then (some "Failed to create ledger entry", st) else
  let st1 := createLedgerEntry st (debitEntryOf currentBalance donation)
  if faults 2 then (some "Failed to create ledger entry", st1) else
  let st2 := createLedgerEntry st1 (creditEntryOf currentBalance netAmount donation)
  if gatewayFee > 0 then
    if faults 3 then (some "Failed to create ledger entry", st2) else
    (none, createLedgerEntry st2 (feeEntryOf currentBalance gatewayFee donation))
  else
    (none, st2)

/-- `LedgerManager.RecordDonation`, fault-free run. -/
def recordDonation (st : RepoState) (donation : Donation) : RepoState :=
  (recordDonationWith (fun _ => false) st donation).2

/-- The ledger rows a `RecordDonation` run appended for one donation:
the final `ledgers` table minus its previous contents. -/
def donationEntries (faults : Nat → Bool) (st : RepoState) (donation : Donation) :
    List Ledger :=
  ((recordDonationWith faults st donation).2).ledgers.drop st.ledgers.length

/-- Sum of the amounts of the debit rows of a list of ledger entries. -/
def debitSum (entries : List Ledger) : Int :=
  ((entries.filter (fun e => e.accountType = "debit")).map Ledger.amount).sum

/-- Sum of the amounts of the credit rows of a list of ledger entries. -/
def creditSum (entries : List Ledger) : Int :=
  ((entries.filter (fun e => e.accountType = "credit")).map Ledger.amount).sum

/-! ## Gateway adapters (`pkg/payment`) -/

/-- `payment.StatusPending` (the adapter-level status vocabulary). -/
def StatusPending : String := "pending"

/-- `payment.StatusSuccess`. -/
def StatusSuccess : String := "success"

/-- `payment.StatusFailed`. -/
def StatusFailed : String := "failed"

/-- `payment.StatusCancelled`. -/
def StatusCancelled : String := "cancelled"

/-- `payment.StatusExpired`. -/
def StatusExpired : String := "expired"

/-- `MidtransGateway.mapMidtransStatus`: the fixed provider-to-internal
status mapping of the Midtrans adapter, a Go `switch` over the provider
status string. -/
def mapMidtransStatus (status : String) : String :=
  if status = "capture" ∨ status = "settlement" then StatusSuccess
  else if status = "pending" then StatusPending
  else if status = "deny" ∨ status = "cancel" then StatusCancelled
  else if status = "expire" then StatusExpired
  else StatusFailed

/-- `XenditGateway.mapXenditStatus`: the fixed provider-to-internal status
mapping of the Xendit adapter. -/
def mapXenditStatus (status : String) : String :=
  if status = "PAID" ∨ status = "SETTLED" then StatusSuccess
  else if status = "PENDING" then StatusPending
  else if status = "EXPIRED" then StatusExpired
  else if status = "FAILED" then StatusFailed
  else StatusPending

/-- A dynamically-typed value inside a Go `map[string]interface\x7b\x7d`
webhook payload, as produced by JSON decoding.  JSON numbers (Go `float64`)
are abstracted to integers; no theorem below depends on non-integral
numeric payload values. -/
inductive GoVal where
  | str (s : String)
  | num (n : Int)
  | boolean (b : Bool)
deriving Repr, DecidableEq

/-- A webhook payload: a Go `map[string]interface\x7b\x7d` as an
association list. -/
def Payload : Type := List (String × GoVal)

/-- Go map indexing `payload[k]`: `none` when the key is absent. -/
def mapIndex (payload : Payload) (k : String) : Option GoVal :=
  (List.find? (fun kv => kv.1 = k) payload).map (fun kv => kv.2)

/-- Go checked type assertion `v, _ := payload[k].(string)`: yields the
string when present, and the zero value `""` when the key is absent or
holds a non-string. -/
def assertStringChecked (payload : Payload) (k : String) : String :=
  match mapIndex payload k with
  | some (GoVal.str s) => s
  | _ => ""

/-- Go unchecked type assertion `payload[k].(string)`: a run-time panic
(`interface conversion`) when the key is absent or holds a non-string. -/
def assertStringUnchecked (payload : Payload) (k : String) : Except String String :=
  match mapIndex payload k with
  | some (GoVal.str s) => Except.ok s
  | _ => Except.error "interface conversion: interface is not string"

/-- Decimal value of a digit-character run (most significant first). -/
def digitsToNat (ds : List Char) : Nat :=
  ds.foldl (fun n c => 10 * n + (c.toNat - '0'.toNat)) 0

/-- `fmt.Sscanf(s, "%d", &amount)`: reads an optional sign and a leading
digit run; on no match the scanned variable keeps its zero value. -/
def sscanfInt (s : String) : Int :=
  match s.toList with
  | '-' :: cs =>
    let ds := cs.takeWhile Char.isDigit
    if ds.isEmpty then 0 else -(digitsToNat ds : Int)
  | cs =>
    let ds := cs.takeWhile Char.isDigit
    if ds.isEmpty then 0 else (digitsToNat ds : Int)

/-- `payment.PaymentNotification` — the verified-notification value the
adapters hand to their caller (`metadata`, which is the raw payload itself,
omitted; `paidAt` abstracts the timestamp to whether it was set). -/
structure PaymentNotification where
  transactionID : String
  orderID : String
  status : String
  amount : Int
  paidAt : Bool
deriving Repr, DecidableEq

/-- `MidtransGateway.VerifyNotification`.  The source performs no signature
check (its comment defers one to "a real implementation"); it parses the
payload with checked assertions for `order_id`, `transaction_status` and
`gross_amount`, and an unchecked assertion — a panic on malformed input —
for `transaction_id`.  The `Except` error is that panic; there is no
error-returning path. -/
def midtransVerifyNotification (payload : Payload) : Except String PaymentNotification :=
  let orderID := assertStringChecked payload "order_id"
  let transactionStatus := assertStringChecked payload "transaction_status"
  let grossAmount := assertStringChecked payload "gross_amount"
  let status := mapMidtransStatus transactionStatus
  let amount := sscanfInt grossAmount
  let paidAt : Bool := decide (status = StatusSuccess)
  match assertStringUnchecked payload "transaction_id" with
  | Except.error e => Except.error e
  | Except.ok transactionID =>
    Except.ok
      { transactionID := transactionID
        orderID := orderID
        status := status
        amount := amount
        paidAt := paidAt }

/-- `XenditGateway.VerifyNotification`.  Like the Midtrans adapter it
performs no signature check; checked assertions read `external_id`,
`status` and `amount` (a JSON number), an unchecked assertion — a panic on
malformed input — reads `id`.  `paid_at` parsing is abstracted to the
presence of a string under that key. -/
def xenditVerifyNotification (payload : Payload) : Except String PaymentNotification :=
  let externalID := assertStringChecked payload "external_id"
  let status := assertStringChecked payload "status"
  let amount : Int :=
    match mapIndex payload "amount" with
    | some (GoVal.num n) => n
    | _ => 0
  let paymentStatus := mapXenditStatus status
  let paidAt : Bool := decide (paymentStatus = StatusSuccess) &&
    (match mapIndex payload "paid_at" with
     | some (GoVal.str _) => true
     | _ => false)
  match assertStringUnchecked payload "id" with
  | Except.error e => Except.error e
  | Except.ok id_ =>
    Except.ok
      { transactionID := id_
        orderID := externalID
        status := paymentStatus
        amount := amount
        paidAt := paidAt }

/-! ## Fraud screen (`internal/services/payment/service`, `FraudDetector`) -/

/-- Go `strings.Contains(s, sub)`: substring containment. -/
def goContains (s sub : String) : Bool := decide (sub.toList <:+: s.toList)

/-- The risk-level / block / reason determination at the end of
`FraudDetector.CheckTransaction` (the `if riskScore >= 70 / >= 40 / else`
chain of the source, factored out so it can be evaluated at a given
score). -/
def riskClassify (riskScore : Int) : String × Bool × String :=
  if riskScore ≥ 70 then ("high", true, "High risk transaction blocked")
  else if riskScore ≥ 40 then ("medium", false, "Medium risk - requires manual review")
  else ("low", false, "")

/-- `FraudDetector.CheckTransaction`.  Two scoring rules are implemented:
the large-amount rule (`+30` above `100000000`) and the suspicious-email
rule (`+20` when the donor email contains `"temp"` or `"disposable"`); the
velocity and IP-blacklist rules are `TODO` comments in the source.  The Go
function always returns a `nil` error, so the embedding is total. -/
def checkTransaction (donation : Donation) (ipAddress deviceID : String) : FraudCheck :=
  let riskScore : Int := 0
  let flags : List String := []
  let (riskScore, flags) :=
    if donation.amount > 100000000 then (riskScore + 30, flags ++ ["high_amount"])
    else (riskScore, flags)
  let (riskScore, flags) :=
    if goContains donation.donorEmail "temp" || goContains donation.donorEmail "disposable" then
      (riskScore + 20, flags ++ ["suspicious_email"])
    else (riskScore, flags)
  let (riskLevel, isBlocked, reason) := riskClassify riskScore
  { donationID := donation.id
    riskScore := riskScore
    riskLevel := riskLevel
    flags := flags
    isBlocked := isBlocked
    reason := reason
    ipAddress := ipAddress
    deviceID := deviceID }

/-! ## Donation orchestrator (modelled from the spec)

The Donation Orchestrator — in particular `HandleNotification` — is
described in §4.1 of the specification but is not part of the source tree
(only the ledger engine, fraud screen, adapters and repository are).  Its
model below follows the spec's steps verbatim, delegating to the embedded
source components for fraud screening, ledger posting and status updates. -/

/-- `expired` as a domain donation status (named in the spec state machine;
the domain constant block of the source does not declare it, so it is
written out). -/
def PaymentStatusExpiredDomain : String := "expired"

/-- Modelled from the spec: the terminal donation statuses — "All of
`success, failed, cancelled, expired, refunded` are terminal for forward
processing". -/
def isTerminal (status : String) : Bool :=
  status = PaymentStatusSuccess || status = PaymentStatusFailed ||
  status = PaymentStatusCancelled || status = PaymentStatusExpiredDomain ||
  status = PaymentStatusRefunded

/-- Modelled from the spec: setting a Donation's `paid_at` "once, on
success only" (§3); the source repository exposes no such update, so it is
modelled as the field update. -/
def setDonationPaidAt (st : RepoState) (id_ : Int) : RepoState :=
  { st with donations :=
      st.donations.map (fun d => if d.id = id_ then { d with paidAt := true } else d) }

/-- Modelled from the spec: `HandleNotification(gateway, rawPayload)`, the
Donation Orchestrator's single entry point for asynchronous gateway
callbacks, which is absent from the source tree.  The argument `n` is the
already-verified `PaymentNotification` (the spec's step "verify payload
authenticity via the Gateway Adapter" is the adapters' `VerifyNotification`
embedded above).  Steps follow §4.1: resolve the Donation by transaction
reference (`UnknownTransaction` is logged, not fatal); short-circuit — log
and discard — when the Donation is already terminal; otherwise run the
Fraud Screen exactly once; on block transition to `failed` skipping the
ledger; on a mapped success status post the ledger, set `paid_at` and
transition to `success`; on failure/cancel/expiry statuses transition
accordingly with no posting; otherwise leave the status unchanged. -/
def handleNotification (st : RepoState) (n : PaymentNotification)
    (ipAddress deviceID : String) : RepoState :=
  match st.donations.find? (fun d => d.transactionID = n.orderID) with
  | none => { st with logCount := st.logCount + 1 }
  | some d =>
    if isTerminal d.status then
      { st with logCount := st.logCount + 1 }
    else
      let fc := checkTransaction d ipAddress deviceID
      let st1 := createFraudCheck st fc
      if fc.isBlocked then
        updateDonationStatus st1 d.id PaymentStatusFailed
      else if n.status = StatusSuccess then
        updateDonationStatus (setDonationPaidAt (recordDonation st1 d) d.id) d.id
          PaymentStatusSuccess
      else if n.status = StatusFailed then
        updateDonationStatus st1 d.id PaymentStatusFailed
      else if n.status = StatusCancelled then
        updateDonationStatus st1 d.id PaymentStatusCancelled
      else if n.status = StatusExpired then
        updateDonationStatus st1 d.id PaymentStatusExpiredDomain
      else
        st1

/-- A concrete donation above the large-amount threshold whose donor email
contains `"disposable"`, used to evaluate the fraud screen. -/
def largeDisposableDonation : Donation :=
  { id := 2
    campaignID := 7
    amount := 150000000
    status := "processing"
    paymentGateway := "midtrans"
    transactionID := "TX-2"
    donorEmail := "shadow@disposable-mail.com"
    paidAt := false }

/-! ## Helper lemmas -/

theorem wrap64_id {x : Int} (h1 : -9223372036854775808 ≤ x)
    (h2 : x < 9223372036854775808) : wrap64 x = x := by
  unfold wrap64
  norm_num
  omega

theorem calculateGatewayFee_midtrans_eq (a : Int) (h0 : 0 ≤ a)
    (h1 : a ≤ 300000000000000000) :
    calculateGatewayFee PaymentGatewayMidtrans a = a * 2 / 100 + 2000 := by
  have hm : wrap64 (a * 2) = a * 2 := wrap64_id (by omega) (by omega)
  have ht : (a * 2).tdiv 100 = a * 2 / 100 := Int.tdiv_eq_ediv (by omega) (by norm_num)
  have hs : wrap64 (a * 2 / 100 + 2000) = a * 2 / 100 + 2000 :=
    wrap64_id (by omega) (by omega)
  unfold calculateGatewayFee i64mul i64add
  rw [if_pos rfl, hm, ht, hs]

theorem calculateGatewayFee_xendit_eq (a : Int) (h0 : 0 ≤ a)
    (h1 : a ≤ 300000000000000000) :
    calculateGatewayFee PaymentGatewayXendit a = a * 29 / 1000 + 2000 := by
  have hm : wrap64 (a * 29) = a * 29 := wrap64_id (by omega) (by omega)
  have ht : (a * 29).tdiv 1000 = a * 29 / 1000 :=
    Int.tdiv_eq_ediv (by omega) (by norm_num)
  have hs : wrap64 (a * 29 / 1000 + 2000) = a * 29 / 1000 + 2000 :=
    wrap64_id (by omega) (by omega)
  unfold calculateGatewayFee i64mul i64add
  rw [if_neg (by decide), if_pos rfl, hm, ht, hs]

theorem calculateGatewayFee_bounds (g : String) (a : Int) (h0 : 0 ≤ a)
    (h1 : a ≤ 300000000000000000) :
    0 ≤ calculateGatewayFee g a ∧ calculateGatewayFee g a ≤ a + 2000 := by
  by_cases hm : g = PaymentGatewayMidtrans
  · rw [hm, calculateGatewayFee_midtrans_eq a h0 h1]
    omega
  · by_cases hx : g = PaymentGatewayXendit
    · rw [hx, calculateGatewayFee_xendit_eq a h0 h1]
      omega
    · unfold calculateGatewayFee
      rw [if_neg hm, if_neg hx]
      omega

theorem i64sub_amount_fee (g : String) (a : Int) (h0 : 0 ≤ a)
    (h1 : a ≤ 300000000000000000) :
    i64sub a (calculateGatewayFee g a) = a - calculateGatewayFee g a := by
  obtain ⟨hf0, hf1⟩ := calculateGatewayFee_bounds g a h0 h1
  unfold i64sub
  exact wrap64_id (by omega) (by omega)

theorem recordDonationWith_error_free (faults : Nat → Bool) (st : RepoState)
    (d : Donation) (herr : (recordDonationWith faults st d).1 = none) :
    faults 0 = false ∧ faults 1 = false ∧ faults 2 = false ∧
      (0 < calculateGatewayFee d.paymentGateway d.amount → faults 3 = false) := by
  unfold recordDonationWith at herr
  by_cases f0 : faults 0
  · simp [f0] at herr
  by_cases f1 : faults 1
  · simp [f0, f1] at herr
  by_cases f2 : faults 2
  · simp [f0, f1, f2] at herr
  by_cases f3 : faults 3
  · by_cases hf : 0 < calculateGatewayFee d.paymentGateway d.amount
    · simp [f0, f1, f2, f3, hf] at herr
    · simp [f0, f1, f2, f3, hf]
  · simp [f0, f1, f2, f3]

theorem recordDonationWith_ok_state (faults : Nat → Bool) (st : RepoState)
    (d : Donation) (f0 : faults 0 = false) (f1 : faults 1 = false)
    (f2 : faults 2 = false)
    (f3 : 0 < calculateGatewayFee d.paymentGateway d.amount → faults 3 = false) :
    recordDonationWith faults st d =
      (none,
        { st with ledgers := st.ledgers ++
            ([debitEntryOf (getCampaignBalance st d.campaignID) d,
              creditEntryOf (getCampaignBalance st d.campaignID)
                (i64sub d.amount (calculateGatewayFee d.paymentGateway d.amount)) d] ++
              (if 0 < calculateGatewayFee d.paymentGateway d.amount then
                [feeEntryOf (getCampaignBalance st d.campaignID)
                  (calculateGatewayFee d.paymentGateway d.amount) d]
              else [])) }) := by
  unfold recordDonationWith createLedgerEntry
  by_cases hf : 0 < calculateGatewayFee d.paymentGateway d.amount
  · simp [f0, f1, f2, f3 hf, hf]
  · simp [f0, f1, f2, hf]

theorem donationEntries_ok (faults : Nat → Bool) (st : RepoState) (d : Donation)
    (herr : (recordDonationWith faults st d).1 = none) :
    donationEntries faults st d =
      [debitEntryOf (getCampaignBalance st d.campaignID) d,
        creditEntryOf (getCampaignBalance st d.campaignID)
          (i64sub d.amount (calculateGatewayFee d.paymentGateway d.amount)) d] ++
      (if 0 < calculateGatewayFee d.paymentGateway d.amount then
        [feeEntryOf (getCampaignBalance st d.campaignID)
          (calculateGatewayFee d.paymentGateway d.amount) d]
      else []) := by
  obtain ⟨f0, f1, f2, f3⟩ := recordDonationWith_error_free faults st d herr
  unfold donationEntries
  rw [recordDonationWith_ok_state faults st d f0 f1 f2 f3]
  simp [List.drop_left]

theorem donationEntries_createFraudCheck (st : RepoState) (fc : FraudCheck)
    (d : Donation) :
    donationEntries (fun _ => false) (createFraudCheck st fc) d
      = donationEntries (fun _ => false) st d := by
  unfold donationEntries
  rw [recordDonationWith_ok_state _ _ d rfl rfl rfl (fun _ => rfl),
    recordDonationWith_ok_state _ st d rfl rfl rfl (fun _ => rfl)]
  simp [createFraudCheck, getCampaignBalance, List.drop_left]

theorem recordDonation_preserves (st : RepoState) (d : Donation) :
    (recordDonation st d).donations = st.donations ∧
    (recordDonation st d).fraudChecks = st.fraudChecks ∧
    (recordDonation st d).logCount = st.logCount := by
  unfold recordDonation
  rw [recordDonationWith_ok_state _ st d rfl rfl rfl (fun _ => rfl)]
  exact ⟨rfl, rfl, rfl⟩

theorem recordDonation_ledgers (st : RepoState) (d : Donation) :
    (recordDonation st d).ledgers = st.ledgers ++ donationEntries (fun _ => false) st d := by
  have herr : (recordDonationWith (fun _ => false) st d).1 = none := by
    rw [recordDonationWith_ok_state _ st d rfl rfl rfl (fun _ => rfl)]
  rw [recordDonation, donationEntries_ok _ _ _ herr,
    recordDonationWith_ok_state _ st d rfl rfl rfl (fun _ => rfl)]

theorem find?_txref_update (l : List Donation) (ref : String) (f : Donation → Donation)
    (hf : ∀ x, (f x).transactionID = x.transactionID) :
    (l.map f).find? (fun x => x.transactionID = ref)
      = (l.find? (fun x => x.transactionID = ref)).map f := by
  have hcomp : ((fun x : Donation => decide (x.transactionID = ref)) ∘ f)
      = fun x : Donation => decide (x.transactionID = ref) := by
    funext x
    simp [Function.comp, hf]
  rw [List.find?_map, hcomp]

theorem checkTransaction_fields (d : Donation) (ip dev : String) :
    (checkTransaction d ip dev).riskScore ≤ 50 ∧
    (checkTransaction d ip dev).isBlocked = false ∧
    (checkTransaction d ip dev).riskLevel ≠ "high" := by
  unfold checkTransaction riskClassify
  by_cases h1 : d.amount > 100000000 <;>
    by_cases h2 :
      (goContains d.donorEmail "temp" || goContains d.donorEmail "disposable") = true <;>
    simp [h1, h2]

/-! ## Claims -/

/-- **C7**: the gateway fee is exact integer arithmetic,
`fee = floor(amount * rate) + flat` with truncation toward zero: for every
in-range nonnegative amount the Midtrans fee is `(amount*2/100) + 2000` and
the Xendit fee is `(amount*29/1000) + 2000` in integer division (floor and
truncation agree on nonnegative operands); amount 1,000,000 under the
Midtrans 2% + 2,000 schedule yields fee 22,000 and net amount 978,000. -/
theorem calculateGatewayFee_exact_integer (a : Int) (h0 : 0 ≤ a)
    (h1 : a ≤ 300000000000000000) :
    calculateGatewayFee PaymentGatewayMidtrans a = ⌊((a : ℚ) * 2) / 100⌋ + 2000 ∧
    calculateGatewayFee PaymentGatewayXendit a = ⌊((a : ℚ) * 29) / 1000⌋ + 2000 ∧
    calculateGatewayFee PaymentGatewayMidtrans a = Int.tdiv (a * 2) 100 + 2000 ∧
    calculateGatewayFee PaymentGatewayXendit a = Int.tdiv (a * 29) 1000 + 2000 ∧
    calculateGatewayFee PaymentGatewayMidtrans 1000000 = 22000 ∧
    1000000 - calculateGatewayFee PaymentGatewayMidtrans 1000000 = 978000 := by
  have hfm : ⌊((a : ℚ) * 2) / 100⌋ = a * 2 / 100 := by
    have := Rat.floor_intCast_div_natCast (a * 2) 100
    push_cast at this ⊢
    convert this using 2
  have hfx : ⌊((a : ℚ) * 29) / 1000⌋ = a * 29 / 1000 := by
    have := Rat.floor_intCast_div_natCast (a * 29) 1000
    push_cast at this ⊢
    convert this using 2
  refine ⟨?_, ?_, ?_, ?_, by decide, by decide⟩
  · rw [hfm]; exact calculateGatewayFee_midtrans_eq a h0 h1
  · rw [hfx]; exact calculateGatewayFee_xendit_eq a h0 h1
  · rw [Int.tdiv_eq_ediv (by omega) (by norm_num)]
    exact calculateGatewayFee_midtrans_eq a h0 h1
  · rw [Int.tdiv_eq_ediv (by omega) (by norm_num)]
    exact calculateGatewayFee_xendit_eq a h0 h1

/-- Witness for C7 at amount 1,000,000. -/
theorem calculateGatewayFee_exact_integer_witness :
    (0 ≤ (1000000 : Int) ∧ (1000000 : Int) ≤ 300000000000000000) ∧
    (calculateGatewayFee PaymentGatewayMidtrans 1000000
        = ⌊(((1000000 : Int) : ℚ) * 2) / 100⌋ + 2000 ∧
      calculateGatewayFee PaymentGatewayXendit 1000000
        = ⌊(((1000000 : Int) : ℚ) * 29) / 1000⌋ + 2000 ∧
      calculateGatewayFee PaymentGatewayMidtrans 1000000
        = Int.tdiv (1000000 * 2) 100 + 2000 ∧
      calculateGatewayFee PaymentGatewayXendit 1000000
        = Int.tdiv (1000000 * 29) 1000 + 2000 ∧
      calculateGatewayFee PaymentGatewayMidtrans 1000000 = 22000 ∧
      1000000 - calculateGatewayFee PaymentGatewayMidtrans 1000000 = 978000) :=
  ⟨⟨by norm_num, by norm_num⟩,
    calculateGatewayFee_exact_integer 1000000 (by norm_num) (by norm_num)⟩

/-- **C5** (counterexample): `"voided"` is outside the Midtrans mapping
table, yet `mapMidtransStatus` sends it to `failed`, not `pending` — the
claim that both adapters default unknown provider statuses to `pending` is
false for the Midtrans adapter. -/
theorem mapMidtransStatus_unknown_not_pending :
    "voided" ∉ (["capture", "settlement", "pending", "deny", "cancel", "expire"] :
        List String) ∧
    mapMidtransStatus "voided" = StatusFailed ∧ StatusFailed ≠ StatusPending := by
  decide

/-- **C5** (amended): a provider status outside the fixed mapping table is
sent to `failed` by the Midtrans adapter and to `pending` by the Xendit
adapter; neither adapter ever returns `success` for an unrecognized
code. -/
theorem mapStatus_default_never_success (s : String)
    (hm : s ∉ (["capture", "settlement", "pending", "deny", "cancel", "expire"] :
        List String))
    (hx : s ∉ (["PAID", "SETTLED", "PENDING", "EXPIRED", "FAILED"] : List String)) :
    mapMidtransStatus s = StatusFailed ∧ mapXenditStatus s = StatusPending ∧
    mapMidtransStatus s ≠ StatusSuccess ∧ mapXenditStatus s ≠ StatusSuccess := by
  simp only [List.mem_cons, List.not_mem_nil, or_false, not_or] at hm hx
  obtain ⟨m1, m2, m3, m4, m5, m6⟩ := hm
  obtain ⟨x1, x2, x3, x4, x5⟩ := hx
  unfold mapMidtransStatus mapXenditStatus
  rw [if_neg (by tauto), if_neg m3, if_neg (by tauto), if_neg m6,
      if_neg (by tauto), if_neg x3, if_neg x4, if_neg x5]
  exact ⟨rfl, rfl, by decide, by decide⟩

/-- Witness for C5's amended statement at the unmapped code `"refund"`. -/
theorem mapStatus_default_never_success_witness :
    ("refund" ∉ (["capture", "settlement", "pending", "deny", "cancel", "expire"] :
        List String) ∧
      "refund" ∉ (["PAID", "SETTLED", "PENDING", "EXPIRED", "FAILED"] : List String)) ∧
    (mapMidtransStatus "refund" = StatusFailed ∧
      mapXenditStatus "refund" = StatusPending ∧
      mapMidtransStatus "refund" ≠ StatusSuccess ∧
      mapXenditStatus "refund" ≠ StatusSuccess) :=
  ⟨⟨by decide, by decide⟩, mapStatus_default_never_success "refund" (by decide) (by decide)⟩

/-- **C9**: for every donation and every ipAddress/deviceId input, the
fraud screen's risk score is at most 50 (only the +30 amount rule and the
+20 email rule can fire — the velocity and IP-blacklist rules are
unimplemented), hence `isBlocked` is always `false` and the risk level is
never `"high"`: the fraud gate can never actually block a donation.  (The
Go function also unconditionally returns a `nil` error, which is why its
embedding `checkTransaction` is a total function.) -/
theorem checkTransaction_never_blocks (d : Donation) (ip dev : String) :
    (checkTransaction d ip dev).riskScore ≤ 50 ∧
    (checkTransaction d ip dev).isBlocked = false ∧
    (checkTransaction d ip dev).riskLevel ≠ "high" :=
  checkTransaction_fields d ip dev

/-- **C8** (counterexample): the donation with amount 150,000,000 (above
the threshold) and a disposable-looking donor email receives risk score 50,
not 75, so it is not `high`/blocked as the claim states. -/
theorem fraud_example_not_75 :
    (checkTransaction largeDisposableDonation "10.0.0.1" "device-1").riskScore = 50 ∧
    ¬ ((checkTransaction largeDisposableDonation "10.0.0.1" "device-1").riskScore = 75 ∧
        (checkTransaction largeDisposableDonation "10.0.0.1" "device-1").riskLevel
          = "high" ∧
        (checkTransaction largeDisposableDonation "10.0.0.1" "device-1").isBlocked
          = true) := by
  decide

/-- **C8** (amended): a donation with amount 150,000,000 (above the
threshold) and a disposable-looking email scores 30 + 20 = 50, risk level
`medium`, not blocked; and the score-threshold classification maps a score
of 45 to `medium` with block = false. -/
theorem fraud_example_fifty_medium :
    (checkTransaction largeDisposableDonation "10.0.0.1" "device-1").riskScore = 50 ∧
    (checkTransaction largeDisposableDonation "10.0.0.1" "device-1").riskLevel
      = "medium" ∧
    (checkTransaction largeDisposableDonation "10.0.0.1" "device-1").isBlocked
      = false ∧
    riskClassify 45 = ("medium", false, "Medium risk - requires manual review") := by
  decide

/-- **C1**: for every donation on which `RecordDonation` completes without
error (any fault schedule that reports no error), the sum of the amounts of
the debit entries it writes equals the sum of the amounts of the credit
entries: the single `cash_account` debit of `amount` equals the
`campaign_fund` credit of `netAmount` plus the `gateway_fee_expense` credit
of `gatewayFee`, the fee entry being omitted exactly when the fee is zero —
for every gateway string and every amount in the positive `int64` range of
a donation. -/
theorem recordDonation_double_entry (faults : Nat → Bool) (st : RepoState)
    (d : Donation) (herr : (recordDonationWith faults st d).1 = none)
    (h0 : 0 < d.amount) (h1 : d.amount ≤ 300000000000000000) :
    debitSum (donationEntries faults st d) = creditSum (donationEntries faults st d) ∧
    ((donationEntries faults st d).filter
        (fun e => e.accountType = "debit")).map Ledger.amount = [d.amount] ∧
    ((donationEntries faults st d).filter
        (fun e => e.accountName = "campaign_fund")).map Ledger.amount
      = [d.amount - calculateGatewayFee d.paymentGateway d.amount] ∧
    ((donationEntries faults st d).filter
        (fun e => e.accountName = "gateway_fee_expense")).map Ledger.amount
      = (if calculateGatewayFee d.paymentGateway d.amount = 0 then []
        else [calculateGatewayFee d.paymentGateway d.amount]) := by
  obtain ⟨hfnn, hfle⟩ :=
    calculateGatewayFee_bounds d.paymentGateway d.amount (le_of_lt h0) h1
  have hnet := i64sub_amount_fee d.paymentGateway d.amount (le_of_lt h0) h1
  rw [donationEntries_ok faults st d herr, hnet]
  by_cases hf : 0 < calculateGatewayFee d.paymentGateway d.amount
  · rw [if_pos hf, if_neg (by omega)]
    simp [debitSum, creditSum, debitEntryOf, creditEntryOf, feeEntryOf]
  · have hfz : calculateGatewayFee d.paymentGateway d.amount = 0 := by omega
    rw [if_neg hf, if_pos hfz, hfz]
    simp [debitSum, creditSum, debitEntryOf, creditEntryOf, feeEntryOf]

/-- Witness for C1: a fault-free posting of a Midtrans donation of
1,000,000. -/
theorem recordDonation_double_entry_witness :
    ((recordDonationWith (fun _ => false)
          { donations := [], ledgers := [], fraudChecks := [], logCount := 0 }
          { id := 1, campaignID := 7, amount := 1000000, status := "processing",
            paymentGateway := "midtrans", transactionID := "TX-1",
            donorEmail := "donor@example.com", paidAt := false }).1 = none ∧
      (0 : Int) < 1000000 ∧ (1000000 : Int) ≤ 300000000000000000) ∧
    debitSum (donationEntries (fun _ => false)
        { donations := [], ledgers := [], fraudChecks := [], logCount := 0 }
        { id := 1, campaignID := 7, amount := 1000000, status := "processing",
          paymentGateway := "midtrans", transactionID := "TX-1",
          donorEmail := "donor@example.com", paidAt := false })
      = creditSum (donationEntries (fun _ => false)
        { donations := [], ledgers := [], fraudChecks := [], logCount := 0 }
        { id := 1, campaignID := 7, amount := 1000000, status := "processing",
          paymentGateway := "midtrans", transactionID := "TX-1",
          donorEmail := "donor@example.com", paidAt := false }) :=
  ⟨⟨by decide, by decide, by decide⟩,
    (recordDonation_double_entry (fun _ => false)
      { donations := [], ledgers := [], fraudChecks := [], logCount := 0 }
      { id := 1, campaignID := 7, amount := 1000000, status := "processing",
        paymentGateway := "midtrans", transactionID := "TX-1",
        donorEmail := "donor@example.com", paidAt := false }
      (by decide) (by decide) (by decide)).1⟩

/-- A concrete Midtrans donation of 1,000,000 to campaign 7, used to
evaluate the ledger and balance code. -/
def millionDonation : Donation :=
  { id := 1
    campaignID := 7
    amount := 1000000
    status := "processing"
    paymentGateway := "midtrans"
    transactionID := "TX-1"
    donorEmail := "donor@example.com"
    paidAt := false }

/-- **C3** (evaluation at the failing input): after one successful posting
of a Midtrans donation of 1,000,000 to campaign 7, the donation's
`campaign_fund` credit — the spec's intended balance, `netAmount` — sums to
978,000, yet `GetCampaignBalance` returns 0: its query sums
credit-minus-debit over the rows of all three accounts, and every balanced
posting nets to zero. -/
theorem getCampaignBalance_nets_to_zero :
    (((recordDonation
          { donations := [millionDonation], ledgers := [], fraudChecks := [],
            logCount := 0 }
          millionDonation).ledgers.filter
        (fun e => e.accountName = "campaign_fund")).map Ledger.amount).sum = 978000 ∧
    getCampaignBalance
        (recordDonation
          { donations := [millionDonation], ledgers := [], fraudChecks := [],
            logCount := 0 }
          millionDonation) 7 = 0 := by
  decide

/-- **C4** (evaluation at the failing input): when the second
`CreateLedgerEntry` insert (the `campaign_fund` credit) fails after the
first succeeded, `RecordDonation` returns an error but the `cash_account`
debit remains persisted — a partial posting, because the three inserts are
independent statements rather than one storage transaction. -/
theorem recordDonation_partial_on_error :
    (recordDonationWith (fun k => k == 2)
        { donations := [millionDonation], ledgers := [], fraudChecks := [],
          logCount := 0 }
        millionDonation).1 = some "Failed to create ledger entry" ∧
    ((recordDonationWith (fun k => k == 2)
        { donations := [millionDonation], ledgers := [], fraudChecks := [],
          logCount := 0 }
        millionDonation).2.ledgers.map Ledger.accountName) = ["cash_account"] := by
  decide

/-- A syntactically well-formed Midtrans settlement notification whose
`signature_key` field holds an arbitrary — in particular forged — value. -/
def midtransPayloadSigned (sig : String) : Payload :=
  [("transaction_id", GoVal.str "mid-123"),
    ("order_id", GoVal.str "ORD-1"),
    ("transaction_status", GoVal.str "settlement"),
    ("gross_amount", GoVal.str "1000000"),
    ("signature_key", GoVal.str sig)]

/-- A syntactically well-formed Xendit paid-invoice notification whose
callback token holds an arbitrary — in particular forged — value. -/
def xenditPayloadTokened (tok : String) : Payload :=
  [("id", GoVal.str "xnd-123"),
    ("external_id", GoVal.str "ORD-2"),
    ("status", GoVal.str "PAID"),
    ("amount", GoVal.num 500000),
    ("paid_at", GoVal.str "2026-01-01T00:00:00Z"),
    ("x-callback-token", GoVal.str tok)]

/-- **C6** (evaluation at the failing input): whatever value the signature
or callback-token field holds — in particular a forged one, so a payload
whose authenticity cannot be established — both adapters' verification
entry points return a parsed success notification rather than a
`VerificationError`: neither contains a signature check or any
error-returning path. -/
theorem verifyNotification_ignores_authenticity (sig tok : String) :
    midtransVerifyNotification (midtransPayloadSigned sig)
      = Except.ok { transactionID := "mid-123", orderID := "ORD-1",
                    status := StatusSuccess, amount := 1000000, paidAt := true } ∧
    xenditVerifyNotification (xenditPayloadTokened tok)
      = Except.ok { transactionID := "xnd-123", orderID := "ORD-2",
                    status := StatusSuccess, amount := 500000, paidAt := true } := by
  constructor <;> rfl

/-- **C10**: at the webhook trust boundary, the Midtrans adapter's
`VerifyNotification` panics — the `Except.error` of the embedding is Go's
unchecked-type-assertion run-time panic, not a returned error value — on
every payload lacking a `"transaction_id"` key holding a string, and the
Xendit adapter's panics on every payload lacking an `"id"` key holding a
string. -/
theorem verifyNotification_panics_on_missing_id (p q : Payload)
    (hp : ∀ s, mapIndex p "transaction_id" ≠ some (GoVal.str s))
    (hq : ∀ s, mapIndex q "id" ≠ some (GoVal.str s)) :
    (∃ e, midtransVerifyNotification p = Except.error e) ∧
    (∃ e, xenditVerifyNotification q = Except.error e) := by
  constructor
  · cases hv : mapIndex p "transaction_id" with
    | none => exact ⟨"interface conversion: interface is not string",
        by simp [midtransVerifyNotification, assertStringUnchecked, hv]⟩
    | some v =>
      cases v with
      | str s => exact absurd hv (hp s)
      | num n => exact ⟨"interface conversion: interface is not string",
        by simp [midtransVerifyNotification, assertStringUnchecked, hv]⟩
      | boolean b =>
        exact ⟨"interface conversion: interface is not string",
        by simp [midtransVerifyNotification, assertStringUnchecked, hv]⟩
  · cases hv : mapIndex q "id" with
    | none => exact ⟨"interface conversion: interface is not string",
        by simp [xenditVerifyNotification, assertStringUnchecked, hv]⟩
    | some v =>
      cases v with
      | str s => exact absurd hv (hq s)
      | num n => exact ⟨"interface conversion: interface is not string",
        by simp [xenditVerifyNotification, assertStringUnchecked, hv]⟩
      | boolean b =>
        exact ⟨"interface conversion: interface is not string",
        by simp [xenditVerifyNotification, assertStringUnchecked, hv]⟩

/-- Witness for C10: a Midtrans payload without `transaction_id` and an
empty Xendit payload. -/
theorem verifyNotification_panics_witness :
    (∃ e, midtransVerifyNotification [("order_id", GoVal.str "ORD-9")]
        = Except.error e) ∧
    (∃ e, xenditVerifyNotification [] = Except.error e) :=
  verifyNotification_panics_on_missing_id _ _
    (fun s h => by simp [mapIndex, List.find?] at h)
    (fun s h => by simp [mapIndex, List.find?] at h)

/-- **C2** (spec-modelled: the Donation Orchestrator is absent from the
source tree, so `handleNotification` follows the spec's §4.1 steps):
processing the same success notification twice yields exactly one ledger
posting, one fraud check and one transition into a terminal state — the
first call posts the donation's entries, records one fraud check, and moves
the donation to `success`; the second call finds the donation terminal and
is accepted, logged (`logCount` increments), and discarded with the state
otherwise unchanged: no second fraud check and no second ledger post. -/
theorem handleNotification_idempotent (st : RepoState) (n : PaymentNotification)
    (ip dev : String) (d : Donation)
    (hfind : st.donations.find? (fun x => x.transactionID = n.orderID) = some d)
    (hterm : isTerminal d.status = false)
    (hsucc : n.status = StatusSuccess) :
    (handleNotification st n ip dev).ledgers
        = st.ledgers ++ donationEntries (fun _ => false) st d ∧
    (handleNotification st n ip dev).fraudChecks
        = st.fraudChecks ++ [checkTransaction d ip dev] ∧
    ((handleNotification st n ip dev).donations.find?
        (fun x => x.transactionID = n.orderID)).map Donation.status
        = some PaymentStatusSuccess ∧
    handleNotification (handleNotification st n ip dev) n ip dev
        = { handleNotification st n ip dev with
            logCount := (handleNotification st n ip dev).logCount + 1 } := by
  have hnb : (checkTransaction d ip dev).isBlocked = false :=
    (checkTransaction_fields d ip dev).2.1
  have h1 : handleNotification st n ip dev
      = updateDonationStatus
          (setDonationPaidAt
            (recordDonation (createFraudCheck st (checkTransaction d ip dev)) d) d.id)
          d.id PaymentStatusSuccess := by
    unfold handleNotification
    simp [hfind, hterm, hnb, hsucc]
  have hled : (handleNotification st n ip dev).ledgers
      = st.ledgers ++ donationEntries (fun _ => false) st d := by
    rw [h1]
    show (recordDonation (createFraudCheck st (checkTransaction d ip dev)) d).ledgers = _
    rw [recordDonation_ledgers, donationEntries_createFraudCheck]
    rfl
  have hfcs : (handleNotification st n ip dev).fraudChecks
      = st.fraudChecks ++ [checkTransaction d ip dev] := by
    rw [h1]
    show (recordDonation (createFraudCheck st (checkTransaction d ip dev)) d).fraudChecks
      = _
    rw [(recordDonation_preserves _ _).2.1]
    rfl
  have hfd : (handleNotification st n ip dev).donations.find?
        (fun x => x.transactionID = n.orderID)
      = some { d with paidAt := true, status := PaymentStatusSuccess } := by
    rw [h1]
    show ((((recordDonation (createFraudCheck st (checkTransaction d ip dev)) d).donations.map
          (fun x => if x.id = d.id then { x with paidAt := true } else x)).map
          (fun x => if x.id = d.id then { x with status := PaymentStatusSuccess } else x)).find?
        (fun x => x.transactionID = n.orderID)) = _
    rw [find?_txref_update _ _ _ (fun x => by by_cases h : x.id = d.id <;> simp [h]),
      find?_txref_update _ _ _ (fun x => by by_cases h : x.id = d.id <;> simp [h]),
      (recordDonation_preserves _ _).1]
    show (Option.map _ (Option.map _ (st.donations.find?
        (fun x => x.transactionID = n.orderID)))) = _
    rw [hfind]
    simp
  have hterm2 :
      isTerminal ({ d with paidAt := true, status := PaymentStatusSuccess } : Donation).status
        = true := by
    simp [isTerminal, PaymentStatusSuccess]
  have h2 : handleNotification (handleNotification st n ip dev) n ip dev
      = { handleNotification st n ip dev with
          logCount := (handleNotification st n ip dev).logCount + 1 } := by
    conv_lhs => rw [handleNotification]
    rw [hfd]
    simp [hterm2]
  exact ⟨hled, hfcs, by rw [hfd]; rfl, h2⟩

/-- Witness for C2: one pending-to-success notification replayed on a
one-donation state. -/
theorem handleNotification_idempotent_witness :
    ({ donations := [millionDonation], ledgers := [], fraudChecks := [],
        logCount := 0 : RepoState }.donations.find?
          (fun x => x.transactionID = "TX-1") = some millionDonation ∧
      isTerminal millionDonation.status = false ∧
      ({ transactionID := "mid-123", orderID := "TX-1", status := "success",
          amount := 1000000, paidAt := true : PaymentNotification }).status
        = StatusSuccess) ∧
    (handleNotification
        (handleNotification
          { donations := [millionDonation], ledgers := [], fraudChecks := [],
            logCount := 0 }
          { transactionID := "mid-123", orderID := "TX-1", status := "success",
            amount := 1000000, paidAt := true } "10.0.0.1" "device-1")
        { transactionID := "mid-123", orderID := "TX-1", status := "success",
          amount := 1000000, paidAt := true } "10.0.0.1" "device-1"
      = { handleNotification
            { donations := [millionDonation], ledgers := [], fraudChecks := [],
              logCount := 0 }
            { transactionID := "mid-123", orderID := "TX-1", status := "success",
              amount := 1000000, paidAt := true } "10.0.0.1" "device-1" with
          logCount :=
            (handleNotification
              { donations := [millionDonation], ledgers := [], fraudChecks := [],
                logCount := 0 }
              { transactionID := "mid-123", orderID := "TX-1", status := "success",
                amount := 1000000, paidAt := true } "10.0.0.1" "device-1").logCount
              + 1 }) :=
  ⟨⟨by decide, by decide, by decide⟩,
    (handleNotification_idempotent
      { donations := [millionDonation], ledgers := [], fraudChecks := [], logCount := 0 }
      { transactionID := "mid-123", orderID := "TX-1", status := "success",
        amount := 1000000, paidAt := true } "10.0.0.1" "device-1" millionDonation
      (by decide) (by decide) (by decide)).2.2.2⟩

end Waqfwise
